import Mathlib

/-!
Shallow embedding of `src/backend/server.py` (FinTrack API): a personal
finance backend with two MongoDB-backed collections (`spendings`, `income`),
CRUD handlers, a statistics aggregate and a seed endpoint.

Modelling conventions:
* The Mongo collections become Lean lists of documents in natural
  (insertion) order; `find_one_and_update` / `delete_one` act on the first
  document matching the filter, as Mongo does without a sort.
* Python floats become `ℚ` (the amounts in this program are decimal
  literals; all claims are structural, not about rounding).
* `uuid.uuid4()` and `datetime.now(...)` are nondeterministic; handlers
  take the fresh id / timestamp as explicit parameters (indexed by item
  position for bulk operations).
* A handler that can `raise HTTPException` returns `Except Err α × DB`:
  on the error side the returned `DB` is the unchanged store, matching the
  Python code which raises before writing.
* A stored document may lack a numeric sub-field (the statistics endpoint
  reads them with `.get(key, 0)`), so those fields are `Option ℚ` in the
  document types; the constructors used by create always fill them.
-/

/-- `HTTPException` outcomes raised by the handlers: status code 400 with a
detail string, or status code 404 with a detail string. -/
inductive Err where
  | badRequest (detail : String)
  | notFound (detail : String)
deriving DecidableEq, Repr

/-- Request model `SpendingCreate`: category, date (`YYYY-MM-DD`), amount. -/
structure SpendingCreate where
  category : String
  date : String
  amount : ℚ
deriving DecidableEq, Repr

/-- Request model `SpendingUpdate`: all three fields optional. -/
structure SpendingUpdate where
  category : Option String
  date : Option String
  amount : Option ℚ
deriving DecidableEq, Repr

/-- A document stored in the `spendings` collection (`Spending` model:
id, category, date, amount, created_at). `amount` is `Option` because the
statistics endpoint defends against stored documents missing it. -/
structure SpendingDoc where
  id : String
  category : String
  date : String
  amount : Option ℚ
  created_at : String
deriving DecidableEq, Repr

/-- Request model `IncomeCreate`: month (`YYYY-MM`), income, saved, home. -/
structure IncomeCreate where
  month : String
  income : ℚ
  saved : ℚ := 0
  home : ℚ := 0
deriving DecidableEq, Repr

/-- Request model `IncomeUpdate`: income, saved, home, all optional. -/
structure IncomeUpdate where
  income : Option ℚ
  saved : Option ℚ
  home : Option ℚ
deriving DecidableEq, Repr

/-- A document stored in the `income` collection (`Income` model: id,
month, income, saved, home, created_at). -/
structure IncomeDoc where
  id : String
  month : String
  income : Option ℚ
  saved : Option ℚ
  home : Option ℚ
  created_at : String
deriving DecidableEq, Repr

/-- The document store: the two collections of `db`. -/
structure DB where
  spendings : List SpendingDoc
  income : List IncomeDoc
deriving DecidableEq, Repr

def emptyDB : DB := ⟨[], []⟩

/-- `Spending(**spending.model_dump())` followed by `model_dump()`:
the document built from a create request plus fresh id and timestamp. -/
def mkSpending (freshId freshTs : String) (c : SpendingCreate) : SpendingDoc :=
  { id := freshId, category := c.category, date := c.date,
    amount := some c.amount, created_at := freshTs }

/-- `Income(**income.model_dump())` followed by `model_dump()`. -/
def mkIncome (freshId freshTs : String) (c : IncomeCreate) : IncomeDoc :=
  { id := freshId, month := c.month, income := some c.income,
    saved := some c.saved, home := some c.home, created_at := freshTs }

/-- The `update_data` dict `{k: v for k, v in spending.model_dump().items()
if v is not None}` is empty iff every optional field is `None`. -/
def SpendingUpdate.isEmpty (u : SpendingUpdate) : Bool :=
  u.category.isNone && u.date.isNone && u.amount.isNone

def IncomeUpdate.isEmpty (u : IncomeUpdate) : Bool :=
  u.income.isNone && u.saved.isNone && u.home.isNone

/-- Mongo `$set` with the non-`None` fields of a `SpendingUpdate`. -/
def SpendingUpdate.applyTo (u : SpendingUpdate) (d : SpendingDoc) : SpendingDoc :=
  { d with
    category := u.category.getD d.category,
    date := u.date.getD d.date,
    amount := (u.amount.map some).getD d.amount }

/-- Mongo `$set` with the non-`None` fields of an `IncomeUpdate`. -/
def IncomeUpdate.applyTo (u : IncomeUpdate) (d : IncomeDoc) : IncomeDoc :=
  { d with
    income := (u.income.map some).getD d.income,
    saved := (u.saved.map some).getD d.saved,
    home := (u.home.map some).getD d.home }

/-- `find_one_and_update` on a list: rewrite the first element satisfying
`p` with `f`, returning the updated element and the new list, or `none`
when nothing matches. -/
def updateFirst (p : α → Bool) (f : α → α) : List α → Option (α × List α)
  | [] => none
  | x :: xs =>
      if p x then some (f x, f x :: xs)
      else match updateFirst p f xs with
        | none => none
        | some (r, xs') => some (r, x :: xs')

/-- `delete_one` on a list: drop the first element satisfying `p`,
or `none` when nothing matches. -/
def deleteFirst (p : α → Bool) : List α → Option (List α)
  | [] => none
  | x :: xs => if p x then some xs else (deleteFirst p xs).map (x :: ·)

/-- `GET /api/spendings`: `db.spendings.find({}, {"_id": 0}).to_list(10000)`. -/
def get_spendings (db : DB) : List SpendingDoc :=
  db.spendings.take 10000

/-- `POST /api/spendings`: build the document and insert it. -/
def create_spending (db : DB) (freshId freshTs : String) (c : SpendingCreate) :
    SpendingDoc × DB :=
  let doc := mkSpending freshId freshTs c
  (doc, { db with spendings := db.spendings ++ [doc] })

/-- `PUT /api/spendings/{spending_id}`. -/
def update_spending (db : DB) (spending_id : String) (u : SpendingUpdate) :
    Except Err SpendingDoc × DB :=
  if u.isEmpty then (.error (.badRequest "No fields to update"), db)
  else match updateFirst (fun d => d.id == spending_id) u.applyTo db.spendings with
    | none => (.error (.notFound "Spending not found"), db)
    | some (r, l) => (.ok r, { db with spendings := l })

/-- `DELETE /api/spendings/{spending_id}`. -/
def delete_spending (db : DB) (spending_id : String) : Except Err String × DB :=
  match deleteFirst (fun d => d.id == spending_id) db.spendings with
  | none => (.error (.notFound "Spending not found"), db)
  | some l => (.ok "Spending deleted successfully", { db with spendings := l })

/-- `POST /api/spendings/bulk`: one document per input item, fresh id and
timestamp each, inserted in one batch; returns the created count (the
handler reports it in its message string). -/
def create_bulk_spendings (db : DB) (fresh : ℕ → String × String)
    (spendings : List SpendingCreate) : ℕ × DB :=
  let docs := spendings.enum.map fun p => mkSpending (fresh p.1).1 (fresh p.1).2 p.2
  (docs.length, { db with spendings := db.spendings ++ docs })

/-- `GET /api/income`: `db.income.find({}, {"_id": 0}).to_list(1000)`. -/
def get_income (db : DB) : List IncomeDoc :=
  db.income.take 1000

/-- `POST /api/income`: duplicate-month check, then insert. -/
def create_income (db : DB) (freshId freshTs : String) (c : IncomeCreate) :
    Except Err IncomeDoc × DB :=
  if db.income.any (fun d => d.month == c.month) then
    (.error (.badRequest "Income record for this month already exists. Use PUT to update."), db)
  else
    let doc := mkIncome freshId freshTs c
    (.ok doc, { db with income := db.income ++ [doc] })

/-- `PUT /api/income/{month}`. -/
def update_income (db : DB) (month : String) (u : IncomeUpdate) :
    Except Err IncomeDoc × DB :=
  if u.isEmpty then (.error (.badRequest "No fields to update"), db)
  else match updateFirst (fun d => d.month == month) u.applyTo db.income with
    | none => (.error (.notFound "Income record not found"), db)
    | some (r, l) => (.ok r, { db with income := l })

/-- `DELETE /api/income/{month}`. -/
def delete_income (db : DB) (month : String) : Except Err String × DB :=
  match deleteFirst (fun d => d.month == month) db.income with
  | none => (.error (.notFound "Income record not found"), db)
  | some l => (.ok "Income record deleted successfully", { db with income := l })

/-- `POST /api/income/bulk`: same per-item construction as the spending
bulk create; no uniqueness check of any kind. -/
def create_bulk_income (db : DB) (fresh : ℕ → String × String)
    (income_records : List IncomeCreate) : ℕ × DB :=
  let docs := income_records.enum.map fun p => mkIncome (fresh p.1).1 (fresh p.1).2 p.2
  (docs.length, { db with income := db.income ++ docs })

/-- The JSON object returned by `GET /api/statistics`. -/
structure Stats where
  total_spending : ℚ
  total_income : ℚ
  total_saved : ℚ
  total_home : ℚ
  net_balance : ℚ
  spending_count : ℕ
  income_months : ℕ
deriving DecidableEq, Repr

/-- `GET /api/statistics`: reads both collections through the same capped
`to_list` as the list endpoints, sums with `.get(key, 0)` defaults. -/
def get_statistics (db : DB) : Stats :=
  let spendings := db.spendings.take 10000
  let income_records := db.income.take 1000
  let total_spending := (spendings.map (fun s => s.amount.getD 0)).sum
  let total_income := (income_records.map (fun i => i.income.getD 0)).sum
  let total_saved := (income_records.map (fun i => i.saved.getD 0)).sum
  let total_home := (income_records.map (fun i => i.home.getD 0)).sum
  { total_spending := total_spending
    total_income := total_income
    total_saved := total_saved
    total_home := total_home
    net_balance := total_income - total_spending
    spending_count := spendings.length
    income_months := income_records.length }

def initial_spendings_0 : List SpendingCreate := [
  ⟨"Luminar", "2025-03-27", 110424⟩,
  ⟨"Internet", "2025-03-27", 7000⟩,
  ⟨"iTunes", "2025-03-27", 7250⟩,
  ⟨"ChatGPT", "2025-03-29", 10010⟩,
  ⟨"Internet", "2025-04-02", 5000⟩,
  ⟨"Taxi", "2025-04-06", 5000⟩,
  ⟨"Food", "2025-04-06", 11500⟩,
  ⟨"Taxi", "2025-04-07", 10000⟩,
  ⟨"Food", "2025-04-07", 5250⟩,
  ⟨"Barber", "2025-04-07", 5000⟩,
  ⟨"Taxi", "2025-04-08", 17250⟩,
  ⟨"College Project", "2025-04-08", 60000⟩,
  ⟨"Taxi", "2025-04-09", 5000⟩,
  ⟨"Food", "2025-04-09", 6750⟩,
  ⟨"Taxi", "2025-04-10", 14416⟩,
  ⟨"Food", "2025-04-10", 21275⟩,
  ⟨"Food", "2025-04-12", 10000⟩,
  ⟨"Taxi", "2025-04-13", 11871.55⟩,
  ⟨"Food", "2025-04-13", 8775⟩,
  ⟨"Doctor", "2025-04-13", 28750⟩,
  ⟨"Taxi", "2025-04-14", 79750⟩,
  ⟨"Food", "2025-04-14", 6500⟩,
  ⟨"Food", "2025-04-16", 6500⟩,
  ⟨"Food", "2025-04-17", 13625⟩,
  ⟨"Spotify", "2025-04-17", 4500⟩,
  ⟨"Food", "2025-04-18", 12000⟩,
  ⟨"Food", "2025-04-19", 16600⟩,
  ⟨"365DataSci", "2025-04-19", 29584.80⟩,
  ⟨"Food", "2025-04-20", 4655⟩,
  ⟨"Food", "2025-04-21", 3750⟩,
  ⟨"Food", "2025-04-23", 5500⟩,
  ⟨"Food", "2025-04-24", 4250⟩,
  ⟨"Barber", "2025-04-24", 10000⟩,
  ⟨"Home", "2025-04-25", 35000⟩,
  ⟨"Food", "2025-04-26", 18250⟩,
  ⟨"Taxi", "2025-04-27", 9037⟩,
  ⟨"Food", "2025-04-27", 3250⟩,
  ⟨"With-Msto", "2025-04-27", 25050⟩,
  ⟨"Korek", "2025-04-28", 1400⟩,
  ⟨"Taxi", "2025-04-28", 12576.36⟩,
  ⟨"New Laptop", "2025-04-28", 1501000⟩,
  ⟨"Taxi", "2025-04-30", 4079.82⟩,
  ⟨"Food", "2025-04-30", 3750⟩,
  ⟨"Gaming", "2025-05-01", 40102⟩,
  ⟨"Taxi", "2025-05-02", 9030⟩,
  ⟨"Taxi", "2025-05-04", 7983⟩,
  ⟨"Food", "2025-05-04", 10250⟩,
  ⟨"Food", "2025-05-05", 6750⟩,
  ⟨"Taxi", "2025-05-06", 6139⟩,
  ⟨"Taxi", "2025-05-07", 1000⟩
]

def initial_spendings_1 : List SpendingCreate := [
  ⟨"Food", "2025-05-07", 3000⟩,
  ⟨"Food", "2025-05-08", 5250⟩,
  ⟨"Taxi", "2025-05-10", 5000⟩,
  ⟨"Food", "2025-05-10", 5500⟩,
  ⟨"Taxi", "2025-05-12", 11500⟩,
  ⟨"Food", "2025-05-12", 3750⟩,
  ⟨"Barber", "2025-05-12", 5000⟩,
  ⟨"Taxi", "2025-05-13", 12500⟩,
  ⟨"Food", "2025-05-13", 2000⟩,
  ⟨"College Poster", "2025-05-13", 4000⟩,
  ⟨"Taxi", "2025-05-14", 13947⟩,
  ⟨"Food", "2025-05-14", 4000⟩,
  ⟨"Taxi", "2025-05-17", 16000⟩,
  ⟨"Food", "2025-05-17", 4000⟩,
  ⟨"Laptop", "2025-05-17", 115000⟩,
  ⟨"Controller", "2025-05-17", 35000⟩,
  ⟨"Taxi", "2025-05-18", 89750⟩,
  ⟨"Food", "2025-05-18", 29000⟩,
  ⟨"Taxi", "2025-05-19", 5000⟩,
  ⟨"Food", "2025-05-19", 5000⟩,
  ⟨"Taxi", "2025-05-20", 5000⟩,
  ⟨"Taxi", "2025-05-21", 10000⟩,
  ⟨"Food", "2025-05-21", 1250⟩,
  ⟨"College Project", "2025-05-21", 15750⟩,
  ⟨"Food", "2025-05-22", 4250⟩,
  ⟨"Food", "2025-05-25", 6250⟩,
  ⟨"Taxi", "2025-05-26", 6500⟩,
  ⟨"Food", "2025-05-26", 5000⟩,
  ⟨"Food", "2025-05-27", 5500⟩,
  ⟨"With-Mattin", "2025-05-27", 150150⟩,
  ⟨"College Project", "2025-05-27", 209209⟩,
  ⟨"Food", "2025-05-28", 5500⟩,
  ⟨"Taxi", "2025-05-29", 15000⟩,
  ⟨"16GB RAM", "2025-05-29", 73000⟩,
  ⟨"Gaming", "2025-05-30", 40040⟩,
  ⟨"Taxi", "2025-05-31", 12000⟩,
  ⟨"Food", "2025-05-31", 39169⟩,
  ⟨"Bank Fees", "2025-05-31", 1500⟩,
  ⟨"Photo Print", "2025-05-31", 19000⟩,
  ⟨"Korek", "2025-05-31", 10100⟩,
  ⟨"Taxi", "2025-06-01", 19000⟩,
  ⟨"Food", "2025-06-01", 10000⟩,
  ⟨"Belt", "2025-06-01", 30000⟩,
  ⟨"Watch", "2025-06-01", 40000⟩,
  ⟨"Food", "2025-06-02", 4500⟩,
  ⟨"Taxi", "2025-06-04", 7000⟩,
  ⟨"Food", "2025-06-04", 28018⟩,
  ⟨"Controller", "2025-06-04", 80000⟩,
  ⟨"Wallet", "2025-06-04", 4000⟩,
  ⟨"Shoes", "2025-06-04", 30000⟩
]

def initial_spendings_2 : List SpendingCreate := [
  ⟨"Food", "2025-06-07", 2000⟩,
  ⟨"Food", "2025-06-08", 4000⟩,
  ⟨"Taxi", "2025-06-10", 23250⟩,
  ⟨"Hospital (EIH)", "2025-06-10", 106250⟩,
  ⟨"Taxi", "2025-06-11", 15250⟩,
  ⟨"Food", "2025-06-11", 10000⟩,
  ⟨"Keyboard", "2025-06-11", 30000⟩,
  ⟨"Taxi", "2025-06-12", 7500⟩,
  ⟨"Food", "2025-06-12", 6250⟩,
  ⟨"Taxi", "2025-06-15", 13250⟩,
  ⟨"Food", "2025-06-15", 4500⟩,
  ⟨"Taxi", "2025-06-16", 16029.78⟩,
  ⟨"Food", "2025-06-16", 7125⟩,
  ⟨"Taxi", "2025-06-17", 6810.82⟩,
  ⟨"Taxi", "2025-06-18", 3630.66⟩,
  ⟨"Food", "2025-06-18", 3750⟩,
  ⟨"Taxi", "2025-06-19", 15000⟩,
  ⟨"Food", "2025-06-19", 7362⟩,
  ⟨"Food", "2025-06-20", 10000⟩,
  ⟨"Food", "2025-06-22", 5500⟩,
  ⟨"Taxi", "2025-06-23", 5366.91⟩,
  ⟨"Food", "2025-06-24", 4000⟩,
  ⟨"Fuel", "2025-06-24", 10000⟩,
  ⟨"Food", "2025-06-26", 33750⟩,
  ⟨"Fuel", "2025-06-26", 10000⟩,
  ⟨"Taxi", "2025-06-27", 5500⟩,
  ⟨"Taxi", "2025-06-28", 5000⟩,
  ⟨"Food", "2025-06-28", 6175⟩,
  ⟨"Food", "2025-06-29", 6175⟩,
  ⟨"Taxi", "2025-06-30", 12660⟩,
  ⟨"Food", "2025-06-30", 3750⟩,
  ⟨"Taxi", "2025-07-01", 16523⟩,
  ⟨"Food", "2025-07-01", 16500⟩,
  ⟨"Headset", "2025-07-01", 115500⟩,
  ⟨"Barber", "2025-07-01", 5000⟩,
  ⟨"Food", "2025-07-03", 3750⟩,
  ⟨"Internet", "2025-07-03", 29500⟩,
  ⟨"Food", "2025-07-04", 5750⟩,
  ⟨"Internet", "2025-07-04", 40000⟩,
  ⟨"Taxi", "2025-07-06", 6750⟩,
  ⟨"Taxi", "2025-07-07", 4898⟩,
  ⟨"Food", "2025-07-07", 5750⟩,
  ⟨"Gaming", "2025-07-07", 67000⟩,
  ⟨"Taxi", "2025-07-08", 32357⟩,
  ⟨"Car Fragrance", "2025-07-08", 4500⟩,
  ⟨"Barber", "2025-07-08", 5000⟩,
  ⟨"Taxi", "2025-07-11", 16663⟩,
  ⟨"Food", "2025-07-11", 7600⟩,
  ⟨"Taxi", "2025-07-12", 7316⟩,
  ⟨"Food", "2025-07-12", 5937⟩
]

def initial_spendings_3 : List SpendingCreate := [
  ⟨"Taxi", "2025-07-13", 12174⟩,
  ⟨"Food", "2025-07-13", 6500⟩,
  ⟨"Taxi", "2025-07-14", 12416⟩,
  ⟨"Food", "2025-07-14", 3750⟩,
  ⟨"Taxi", "2025-07-15", 10210⟩,
  ⟨"Food", "2025-07-15", 20000⟩,
  ⟨"Gaming", "2025-07-15", 7000⟩,
  ⟨"Food", "2025-07-18", 5500⟩,
  ⟨"Food", "2025-07-19", 5500⟩,
  ⟨"Gaming", "2025-07-19", 21447⟩,
  ⟨"Card Swap", "2025-07-19", 10000⟩,
  ⟨"Taxi", "2025-07-20", 14015⟩,
  ⟨"Gaming", "2025-07-20", 34573⟩,
  ⟨"Taxi", "2025-07-21", 13802⟩,
  ⟨"Food", "2025-07-21", 3750⟩,
  ⟨"Taxi", "2025-07-22", 12687⟩,
  ⟨"Taxi", "2025-07-23", 11681⟩,
  ⟨"Food", "2025-07-23", 6000⟩,
  ⟨"Taxi", "2025-07-24", 11000⟩,
  ⟨"Gaming", "2025-07-24", 7000⟩,
  ⟨"Food", "2025-07-25", 5700⟩,
  ⟨"Food", "2025-07-26", 2500⟩,
  ⟨"Taxi", "2025-07-27", 6822⟩,
  ⟨"Food", "2025-07-27", 11000⟩,
  ⟨"Taxi", "2025-07-29", 18427⟩,
  ⟨"Taxi", "2025-07-30", 11750⟩,
  ⟨"Food", "2025-07-30", 11410⟩,
  ⟨"Food", "2025-07-31", 7125⟩,
  ⟨"TOEFL", "2025-07-31", 100100⟩,
  ⟨"Shoe", "2025-07-31", 170750⟩,
  ⟨"Food", "2025-08-01", 11044⟩,
  ⟨"Fuel", "2025-08-01", 15000⟩,
  ⟨"Book", "2025-08-01", 64250⟩,
  ⟨"Taxi", "2025-08-02", 15000⟩,
  ⟨"Food", "2025-08-02", 1500⟩,
  ⟨"Korek", "2025-08-04", 25000⟩,
  ⟨"Fuel", "2025-08-05", 8000⟩,
  ⟨"TOEFL", "2025-08-06", 21500⟩,
  ⟨"Taxi", "2025-08-07", 12703⟩,
  ⟨"Food", "2025-08-07", 5225⟩,
  ⟨"Taxi", "2025-08-08", 8853⟩,
  ⟨"Taxi", "2025-08-09", 15000⟩,
  ⟨"Food", "2025-08-09", 6412⟩,
  ⟨"Internet", "2025-08-09", 2400⟩,
  ⟨"Food", "2025-08-12", 5700⟩,
  ⟨"FLUX.1", "2025-08-12", 13755⟩,
  ⟨"Food", "2025-08-13", 12000⟩,
  ⟨"HONOR 400", "2025-08-13", 482000⟩,
  ⟨"Food", "2025-08-14", 6000⟩,
  ⟨"Fuel", "2025-08-14", 20000⟩
]

def initial_spendings_4 : List SpendingCreate := [
  ⟨"Food", "2025-08-15", 5937⟩,
  ⟨"Book", "2025-08-15", 2000⟩,
  ⟨"Food", "2025-08-17", 13000⟩,
  ⟨"Car Care", "2025-08-18", 10000⟩,
  ⟨"Food", "2025-08-19", 6412⟩,
  ⟨"Car Care", "2025-08-20", 41000⟩,
  ⟨"Food", "2025-08-20", 5500⟩,
  ⟨"Food", "2025-08-21", 5875⟩,
  ⟨"Barber", "2025-08-21", 2000⟩,
  ⟨"Food", "2025-08-22", 6887.50⟩,
  ⟨"Food", "2025-08-25", 17500⟩,
  ⟨"Fuel", "2025-08-27", 25000⟩,
  ⟨"Food", "2025-08-29", 6237⟩,
  ⟨"Food", "2025-08-30", 11277.25⟩,
  ⟨"Fuel", "2025-08-30", 25000⟩,
  ⟨"Food", "2025-08-31", 22750⟩,
  ⟨"Garage", "2025-08-31", 2000⟩,
  ⟨"Food", "2025-09-01", 2000⟩,
  ⟨"Garage", "2025-09-01", 2000⟩,
  ⟨"Food", "2025-09-03", 10391⟩,
  ⟨"Car Wash", "2025-09-04", 6000⟩,
  ⟨"Fuel", "2025-09-04", 10000⟩,
  ⟨"Internet", "2025-09-04", 40400⟩,
  ⟨"Food", "2025-09-06", 3500⟩,
  ⟨"Fuel", "2025-09-08", 25000⟩,
  ⟨"Food", "2025-09-09", 5500⟩,
  ⟨"Food", "2025-09-11", 5000⟩,
  ⟨"Barber", "2025-09-12", 15000⟩,
  ⟨"Food", "2025-09-13", 16000⟩,
  ⟨"Food", "2025-09-16", 5750⟩,
  ⟨"Food", "2025-09-17", 4569⟩,
  ⟨"Food", "2025-09-18", 4500⟩,
  ⟨"Barber", "2025-09-19", 10000⟩,
  ⟨"Food", "2025-09-20", 7000⟩,
  ⟨"Food", "2025-09-21", 6412⟩,
  ⟨"Food", "2025-09-22", 6412⟩,
  ⟨"Food", "2025-09-25", 13512⟩,
  ⟨"Food", "2025-09-26", 4500⟩,
  ⟨"Fuel", "2025-09-26", 25000⟩,
  ⟨"Car Care", "2025-09-26", 9000⟩,
  ⟨"Food", "2025-09-27", 11250⟩,
  ⟨"FIB Extract", "2025-09-27", 12000⟩,
  ⟨"Food", "2025-09-30", 4000⟩,
  ⟨"Car Care", "2025-10-01", 5000⟩,
  ⟨"Food", "2025-10-01", 12500⟩,
  ⟨"Food", "2025-10-02", 6700⟩,
  ⟨"Car Plate", "2025-10-02", 1550000⟩,
  ⟨"Fuel", "2025-10-03", 25000⟩,
  ⟨"Food", "2025-10-04", 5000⟩,
  ⟨"Food", "2025-10-05", 5000⟩
]

def initial_spendings_5 : List SpendingCreate := [
  ⟨"Food", "2025-10-06", 6507⟩,
  ⟨"Certificate", "2025-10-07", 50000⟩,
  ⟨"Food", "2025-10-08", 12259⟩,
  ⟨"Food", "2025-10-09", 5500⟩,
  ⟨"Food", "2025-10-11", 20000⟩,
  ⟨"Car Care", "2025-10-12", 5000⟩,
  ⟨"Food", "2025-10-12", 6000⟩,
  ⟨"Car Wash", "2025-10-12", 10000⟩,
  ⟨"Food", "2025-10-13", 9950⟩,
  ⟨"Food", "2025-10-14", 5000⟩,
  ⟨"Food", "2025-10-15", 9500⟩,
  ⟨"Food", "2025-10-16", 5225⟩,
  ⟨"Malzama", "2025-10-17", 36000⟩,
  ⟨"Food", "2025-10-17", 3750⟩,
  ⟨"Fuel", "2025-10-17", 25000⟩,
  ⟨"Internet", "2025-10-17", 5000⟩,
  ⟨"Food", "2025-10-18", 15000⟩,
  ⟨"Food", "2025-10-20", 5795⟩,
  ⟨"Food", "2025-10-21", 6500⟩,
  ⟨"Food", "2025-10-22", 4000⟩,
  ⟨"Food", "2025-10-23", 11625⟩,
  ⟨"Food", "2025-10-24", 5650⟩,
  ⟨"Food", "2025-10-25", 17000⟩,
  ⟨"Fuel", "2025-10-25", 15000⟩,
  ⟨"Food", "2025-10-26", 5000⟩,
  ⟨"Food", "2025-10-27", 5500⟩,
  ⟨"Food", "2025-10-28", 5842⟩,
  ⟨"Food", "2025-10-29", 7750⟩,
  ⟨"Fuel", "2025-10-30", 20000⟩,
  ⟨"Food", "2025-10-31", 2000⟩,
  ⟨"Barber", "2025-10-31", 5000⟩,
  ⟨"Food", "2025-11-01", 6250⟩,
  ⟨"Food", "2025-11-03", 5700⟩,
  ⟨"Food", "2025-11-05", 9831⟩,
  ⟨"Food", "2025-11-06", 8975⟩,
  ⟨"Food", "2025-11-07", 4914⟩,
  ⟨"Food", "2025-11-08", 15750⟩,
  ⟨"Korek", "2025-11-08", 1400⟩,
  ⟨"Car Wash", "2025-11-09", 6000⟩,
  ⟨"Food", "2025-11-09", 35000⟩,
  ⟨"Fuel", "2025-11-09", 10000⟩,
  ⟨"Internet", "2025-11-10", 5000⟩,
  ⟨"Food", "2025-11-11", 5555⟩,
  ⟨"Food", "2025-11-13", 5115⟩,
  ⟨"GitHub Copilot", "2025-11-13", 13755⟩,
  ⟨"Food", "2025-11-14", 6757⟩,
  ⟨"Food", "2025-11-15", 15000⟩,
  ⟨"Fuel", "2025-11-15", 20000⟩,
  ⟨"Food", "2025-11-17", 6060⟩,
  ⟨"Food", "2025-11-18", 2500⟩
]

def initial_spendings_6 : List SpendingCreate := [
  ⟨"Food", "2025-11-19", 6717⟩,
  ⟨"Food", "2025-11-20", 11110⟩,
  ⟨"SQL Course", "2025-11-20", 13780⟩,
  ⟨"Internet", "2025-11-20", 5000⟩,
  ⟨"Car Wash", "2025-11-21", 6000⟩,
  ⟨"Food", "2025-11-21", 4118⟩,
  ⟨"Fuel", "2025-11-21", 15000⟩,
  ⟨"Car Care", "2025-11-21", 2000⟩,
  ⟨"Food", "2025-11-22", 14000⟩,
  ⟨"Food", "2025-11-23", 6060⟩,
  ⟨"Car Wash", "2025-11-25", 5808⟩,
  ⟨"Food", "2025-11-26", 6439⟩,
  ⟨"Fuel", "2025-11-26", 15000⟩,
  ⟨"Jacket", "2025-11-27", 85000⟩,
  ⟨"Barber", "2025-11-28", 7000⟩,
  ⟨"Fuel", "2025-11-29", 25000⟩,
  ⟨"Food", "2025-12-01", 6060⟩,
  ⟨"Food", "2025-12-03", 12726⟩,
  ⟨"Food", "2025-12-04", 4545⟩,
  ⟨"Food", "2025-12-05", 8535⟩,
  ⟨"Charger", "2025-12-07", 20000⟩,
  ⟨"Food", "2025-12-10", 17000⟩,
  ⟨"Fuel", "2025-12-10", 20000⟩,
  ⟨"Internet", "2025-12-10", 5000⟩,
  ⟨"Internet", "2025-12-12", 20000⟩,
  ⟨"Fuel", "2025-12-13", 10000⟩,
  ⟨"Food", "2025-12-17", 21403⟩,
  ⟨"Parking", "2025-12-18", 6000⟩,
  ⟨"Food", "2025-12-18", 1000⟩,
  ⟨"Food", "2025-12-19", 21500⟩,
  ⟨"Barber", "2025-12-19", 5000⟩,
  ⟨"Food", "2025-12-21", 10000⟩,
  ⟨"Food", "2025-12-22", 7070⟩,
  ⟨"Food", "2025-12-23", 48480⟩,
  ⟨"Food", "2025-12-24", 6500⟩,
  ⟨"Gaming", "2025-12-24", 5999⟩,
  ⟨"Car Oil", "2025-12-25", 50000⟩,
  ⟨"Fuel", "2025-12-25", 20000⟩,
  ⟨"Transaction Fee", "2025-12-25", 1202⟩,
  ⟨"Food", "2025-12-26", 10815⟩,
  ⟨"Food", "2025-12-27", 11817⟩,
  ⟨"Food", "2025-12-28", 17600⟩,
  ⟨"Shampoo", "2025-12-28", 11500⟩,
  ⟨"Food", "2025-12-29", 6880⟩,
  ⟨"ChatGPT", "2026-01-01", 6550⟩,
  ⟨"Food", "2026-01-02", 25000⟩,
  ⟨"Food", "2026-01-03", 4383⟩,
  ⟨"Food", "2026-01-04", 5750⟩,
  ⟨"Food", "2026-01-05", 22750⟩,
  ⟨"Food", "2026-01-07", 11000⟩
]

def initial_spendings_7 : List SpendingCreate := [
  ⟨"Food", "2026-01-08", 3500⟩,
  ⟨"Food", "2026-01-09", 8232⟩,
  ⟨"Food", "2026-01-10", 6186⟩,
  ⟨"Food", "2026-01-11", 10000⟩,
  ⟨"Canva Pro", "2026-01-11", 5000⟩,
  ⟨"Food", "2026-01-12", 11575⟩,
  ⟨"Fuel", "2026-01-12", 20000⟩,
  ⟨"Car Care", "2026-01-12", 2000⟩,
  ⟨"Food", "2026-01-14", 17019⟩,
  ⟨"Food", "2026-01-15", 6565⟩,
  ⟨"Barber", "2026-01-16", 10000⟩,
  ⟨"Food", "2026-01-16", 18000⟩,
  ⟨"Food", "2026-01-17", 40000⟩,
  ⟨"Internet", "2026-01-18", 5000⟩,
  ⟨"Food", "2026-01-18", 4500⟩,
  ⟨"Food", "2026-01-19", 3500⟩,
  ⟨"Food", "2026-01-21", 4750⟩,
  ⟨"Food", "2026-01-22", 24500⟩,
  ⟨"Food", "2026-01-23", 3850⟩,
  ⟨"Food", "2026-01-24", 11250⟩,
  ⟨"Food", "2026-01-25", 8750⟩,
  ⟨"Food", "2026-01-26", 12970⟩,
  ⟨"Sherwan's Farewell", "2026-01-27", 15050⟩,
  ⟨"Food", "2026-01-27", 6866⟩,
  ⟨"Redmi Pad 2 Pro", "2026-01-27", 425000⟩,
  ⟨"Parking", "2026-01-28", 2000⟩,
  ⟨"Grade 12 Transcript", "2026-01-28", 35000⟩,
  ⟨"Food", "2026-01-29", 18505⟩,
  ⟨"Food", "2026-01-31", 14250⟩
]

/-- The fixed built-in spending dataset of the seed endpoint
(`initial_spendings` in `seed_data`), split into chunks only to keep
elaboration fast; the concatenation lists the entries in source order. -/
def initial_spendings : List SpendingCreate :=
  initial_spendings_0 ++ initial_spendings_1 ++ initial_spendings_2 ++ initial_spendings_3 ++ initial_spendings_4 ++ initial_spendings_5 ++ initial_spendings_6 ++ initial_spendings_7

/-- The fixed built-in income dataset of the seed endpoint
(`initial_income` in `seed_data`). -/
def initial_income : List IncomeCreate := [
  ⟨"2025-03", 765848.36, 0, 700000⟩,
  ⟨"2025-04", 1059769.54, 0, 0⟩,
  ⟨"2025-05", 1299260, 0, 0⟩,
  ⟨"2025-06", 807067.18, 0, 0⟩,
  ⟨"2025-07", 1324384.05, 0, 0⟩,
  ⟨"2025-08", 807067.18, 0, 0⟩,
  ⟨"2025-09", 1324384.05, 200000, 0⟩,
  ⟨"2025-10", 807067.18, 600000, 0⟩,
  ⟨"2025-11", 1324384.05, 1000000, 0⟩,
  ⟨"2025-12", 821667.18, 0, 0⟩,
  ⟨"2026-01", 1359322.02, 0, 0⟩]

/-- The JSON object returned by `POST /api/seed`: the early-return path
reports the existing document counts under keys `spendings` /
`income_records`; the insert path reports the created counts under keys
`spendings_created` / `income_records_created`. -/
inductive SeedResult where
  | alreadyHasData (spendings income_records : ℕ)
  | seeded (spendings_created income_records_created : ℕ)
deriving DecidableEq, Repr

/-- The spending documents the seed endpoint builds from its fixed dataset
(the `spending_docs` loop of `seed_data`). -/
def seedSpendingDocs (freshS : ℕ → String × String) : List SpendingDoc :=
  initial_spendings.enum.map fun p => mkSpending (freshS p.1).1 (freshS p.1).2 p.2

/-- The income documents the seed endpoint builds from its fixed dataset
(the `income_docs` loop of `seed_data`). -/
def seedIncomeDocs (freshI : ℕ → String × String) : List IncomeDoc :=
  initial_income.enum.map fun p => mkIncome (freshI p.1).1 (freshI p.1).2 p.2

/-- `POST /api/seed`: if either collection is nonempty, return the existing
counts without writing; otherwise build and insert the fixed datasets via
the same per-item construction as bulk create. -/
def seed_data (db : DB) (freshS freshI : ℕ → String × String) : SeedResult × DB :=
  let spending_count := db.spendings.length
  let income_count := db.income.length
  if spending_count > 0 ∨ income_count > 0 then
    (.alreadyHasData spending_count income_count, db)
  else
    let spending_docs := seedSpendingDocs freshS
    let income_docs := seedIncomeDocs freshI
    (.seeded spending_docs.length income_docs.length,
      { db with spendings := db.spendings ++ spending_docs,
                income := db.income ++ income_docs })

/-- One Income Ledger write operation (plus seed), with its fresh
identifiers and timestamps attached. -/
inductive IncomeOp where
  | create (freshId freshTs : String) (c : IncomeCreate)
  | bulkCreate (fresh : ℕ → String × String) (cs : List IncomeCreate)
  | update (month : String) (u : IncomeUpdate)
  | delete (month : String)
  | seed (freshS freshI : ℕ → String × String)

/-- The store reached after one operation (a raised `HTTPException` leaves
the store as it was). -/
def IncomeOp.step (db : DB) : IncomeOp → DB
  | .create fid fts c => (create_income db fid fts c).2
  | .bulkCreate fresh cs => (create_bulk_income db fresh cs).2
  | .update month u => (update_income db month u).2
  | .delete month => (delete_income db month).2
  | .seed fS fI => (seed_data db fS fI).2

/-- The store reached after a sequence of operations. -/
def runIncomeOps (db : DB) (ops : List IncomeOp) : DB :=
  ops.foldl IncomeOp.step db

/-- Distinguishes the bulk-create operation, the one write path with no
month-uniqueness check. -/
def IncomeOp.isBulk : IncomeOp → Bool
  | .bulkCreate _ _ => true
  | _ => false

/-- The one-record-per-month invariant: the stored months are pairwise
distinct. -/
def monthsNodup (l : List IncomeDoc) : Prop :=
  (l.map IncomeDoc.month).Nodup

/-- Statistics as the specification words them: sums, counts and net
balance over *all* records of both ledgers (no read cap). Written from the
spec's text, to be compared with `get_statistics`, which is translated
from the code. -/
def statsSpec (db : DB) : Stats :=
  let total_spending := (db.spendings.map (fun s => s.amount.getD 0)).sum
  let total_income := (db.income.map (fun i => i.income.getD 0)).sum
  { total_spending := total_spending
    total_income := total_income
    total_saved := (db.income.map (fun i => i.saved.getD 0)).sum
    total_home := (db.income.map (fun i => i.home.getD 0)).sum
    net_balance := total_income - total_spending
    spending_count := db.spendings.length
    income_months := db.income.length }

/-- A deterministic stand-in for the uuid/timestamp generator, used in
concrete test states. -/
def freshGen : ℕ → String × String := fun n => (toString n, "t")

def someSpendingDoc : SpendingDoc :=
  ⟨"s1", "Food", "2025-01-01", some 100, "t0"⟩

def someIncomeDoc : IncomeDoc :=
  ⟨"i1", "2025-01", some 200, some 10, some 5, "t0"⟩

/-- A store holding one spending record and nothing else. -/
def dbOneSpending : DB := ⟨[someSpendingDoc], []⟩

/-- A store holding one spending record and one income record. -/
def dbSample : DB := ⟨[someSpendingDoc], [someIncomeDoc]⟩

/-- A store whose income collection exceeds the 1000-document read cap. -/
def dbOverCap : DB := ⟨[], List.replicate 1001 someIncomeDoc⟩

/-- Two income records sharing month `2025-01`, reached from the empty
store by one bulk income create — the duplicate state of C10. -/
def dbDup : DB :=
  (create_bulk_income emptyDB freshGen
    [⟨"2025-01", 1, 0, 0⟩, ⟨"2025-01", 2, 0, 0⟩]).2

/-- A bulk-free operation sequence used to instantiate the month-uniqueness
invariant. -/
def c1Ops : List IncomeOp :=
  [.create "i1" "t1" ⟨"2025-01", 5, 0, 0⟩,
   .update "2025-01" ⟨some 6, none, none⟩,
   .delete "2025-01",
   .create "i2" "t2" ⟨"2025-01", 7, 0, 0⟩,
   .create "i3" "t3" ⟨"2025-02", 8, 0, 0⟩]

section Helpers

variable {α β : Type _}

theorem updateFirst_eq_none_iff (p : α → Bool) (f : α → α) (l : List α) :
    updateFirst p f l = none ↔ ∀ x ∈ l, p x = false := by
  induction l with
  | nil => simp [updateFirst]
  | cons a as ih =>
    rw [updateFirst]
    by_cases ha : p a
    · simp [ha]
    · rw [if_neg ha]
      cases hrec : updateFirst p f as with
      | none =>
        constructor
        · intro _ y hy
          rcases List.mem_cons.mp hy with rfl | hy
          · exact Bool.eq_false_iff.mpr ha
          · exact (ih.mp hrec) y hy
        · intro _; rfl
      | some pr =>
        constructor
        · intro h; exact absurd h (by simp)
        · intro h
          have hnone : updateFirst p f as = none :=
            ih.mpr fun y hy => h y (List.mem_cons.mpr (Or.inr hy))
          rw [hnone] at hrec; exact absurd hrec (by simp)

theorem updateFirst_eq_some (p : α → Bool) (f : α → α) {l l' : List α} {r : α}
    (h : updateFirst p f l = some (r, l')) :
    ∃ l₁ x l₂, l = l₁ ++ x :: l₂ ∧ p x = true ∧ (∀ y ∈ l₁, p y = false) ∧
      r = f x ∧ l' = l₁ ++ f x :: l₂ := by
  induction l generalizing r l' with
  | nil => simp [updateFirst] at h
  | cons a as ih =>
    rw [updateFirst] at h
    by_cases ha : p a
    · rw [if_pos ha] at h
      simp only [Option.some.injEq, Prod.mk.injEq] at h
      obtain ⟨rfl, rfl⟩ := h
      exact ⟨[], a, as, rfl, ha, by simp, rfl, rfl⟩
    · rw [if_neg ha] at h
      cases hrec : updateFirst p f as with
      | none => rw [hrec] at h; exact absurd h (by simp)
      | some pr =>
        obtain ⟨r₀, as'⟩ := pr
        rw [hrec] at h
        simp only [Option.some.injEq, Prod.mk.injEq] at h
        obtain ⟨rfl, rfl⟩ := h
        obtain ⟨l₁, x, l₂, rfl, hx, hl₁, rfl, rfl⟩ := ih hrec
        refine ⟨a :: l₁, x, l₂, rfl, hx, ?_, rfl, rfl⟩
        intro y hy
        rcases List.mem_cons.mp hy with rfl | hy
        · exact Bool.eq_false_iff.mpr ha
        · exact hl₁ y hy

theorem deleteFirst_eq_none_iff (p : α → Bool) (l : List α) :
    deleteFirst p l = none ↔ ∀ x ∈ l, p x = false := by
  induction l with
  | nil => simp [deleteFirst]
  | cons a as ih =>
    rw [deleteFirst]
    by_cases ha : p a
    · simp [ha]
    · rw [if_neg ha]
      cases hrec : deleteFirst p as with
      | none =>
        constructor
        · intro _ y hy
          rcases List.mem_cons.mp hy with rfl | hy
          · exact Bool.eq_false_iff.mpr ha
          · exact (ih.mp hrec) y hy
        · intro _; rfl
      | some l' =>
        constructor
        · intro h; exact absurd h (by simp)
        · intro h
          have hnone : deleteFirst p as = none :=
            ih.mpr fun y hy => h y (List.mem_cons.mpr (Or.inr hy))
          rw [hnone] at hrec; exact absurd hrec (by simp)

theorem deleteFirst_eq_some (p : α → Bool) {l l' : List α}
    (h : deleteFirst p l = some l') :
    ∃ l₁ x l₂, l = l₁ ++ x :: l₂ ∧ p x = true ∧ (∀ y ∈ l₁, p y = false) ∧
      l' = l₁ ++ l₂ := by
  induction l generalizing l' with
  | nil => simp [deleteFirst] at h
  | cons a as ih =>
    rw [deleteFirst] at h
    by_cases ha : p a
    · rw [if_pos ha] at h
      simp only [Option.some.injEq] at h
      exact ⟨[], a, as, rfl, ha, by simp, h.symm⟩
    · rw [if_neg ha] at h
      rcases Option.map_eq_some'.mp h with ⟨as', hrec, rfl⟩
      obtain ⟨l₁, x, l₂, rfl, hx, hl₁, rfl⟩ := ih hrec
      refine ⟨a :: l₁, x, l₂, rfl, hx, ?_, rfl⟩
      intro y hy
      rcases List.mem_cons.mp hy with rfl | hy
      · exact Bool.eq_false_iff.mpr ha
      · exact hl₁ y hy

theorem updateFirst_isSome_iff (p : α → Bool) (f : α → α) (l : List α) :
    (updateFirst p f l).isSome = true ↔ ∃ x ∈ l, p x = true := by
  rw [Option.isSome_iff_ne_none]
  rw [Ne, updateFirst_eq_none_iff]
  push_neg
  simp [Bool.not_eq_false]

theorem deleteFirst_isSome_iff (p : α → Bool) (l : List α) :
    (deleteFirst p l).isSome = true ↔ ∃ x ∈ l, p x = true := by
  rw [Option.isSome_iff_ne_none]
  rw [Ne, deleteFirst_eq_none_iff]
  push_neg
  simp [Bool.not_eq_false]

/-- Rewriting the first match with a function that preserves a projection
`g` leaves the `g`-image of the list unchanged. -/
theorem updateFirst_map_eq (p : α → Bool) (f : α → α) (g : α → β)
    (hg : ∀ a, g (f a) = g a) {l l' : List α} {r : α}
    (h : updateFirst p f l = some (r, l')) : l'.map g = l.map g := by
  obtain ⟨l₁, x, l₂, rfl, _, _, _, rfl⟩ := updateFirst_eq_some p f h
  simp [hg]

theorem deleteFirst_sublist (p : α → Bool) {l l' : List α}
    (h : deleteFirst p l = some l') : l'.Sublist l := by
  obtain ⟨l₁, x, l₂, rfl, _, _, rfl⟩ := deleteFirst_eq_some p h
  exact List.Sublist.append_left (List.sublist_cons_self x l₂) l₁

end Helpers

theorem spendingUpdate_isEmpty_iff (u : SpendingUpdate) :
    u.isEmpty = true ↔ u.category = none ∧ u.date = none ∧ u.amount = none := by
  simp [SpendingUpdate.isEmpty, Bool.and_eq_true, Option.isNone_iff_eq_none, and_assoc]

theorem incomeUpdate_isEmpty_iff (u : IncomeUpdate) :
    u.isEmpty = true ↔ u.income = none ∧ u.saved = none ∧ u.home = none := by
  simp [IncomeUpdate.isEmpty, Bool.and_eq_true, Option.isNone_iff_eq_none, and_assoc]

theorem IncomeUpdate.applyTo_month (u : IncomeUpdate) (d : IncomeDoc) :
    (u.applyTo d).month = d.month := rfl

theorem seedIncomeDocs_map_month (fI : ℕ → String × String) :
    (seedIncomeDocs fI).map IncomeDoc.month = initial_income.map IncomeCreate.month := by
  rw [seedIncomeDocs, List.map_map]
  have hcomp : (IncomeDoc.month ∘ fun p : ℕ × IncomeCreate => mkIncome (fI p.1).1 (fI p.1).2 p.2)
      = IncomeCreate.month ∘ Prod.snd := rfl
  rw [hcomp, ← List.map_map, List.enum_map_snd]

theorem initial_income_months_nodup :
    (initial_income.map IncomeCreate.month).Nodup := by decide

set_option maxRecDepth 4096 in
theorem initial_spendings_length : initial_spendings.length = 379 := by rfl

theorem initial_income_length : initial_income.length = 11 := by rfl

/-- Every Income Ledger operation except bulk create preserves the
one-record-per-month invariant. -/
theorem monthsNodup_step (db : DB) (op : IncomeOp) (hop : op.isBulk = false)
    (h : monthsNodup db.income) : monthsNodup (op.step db).income := by
  cases op with
  | bulkCreate fresh cs => simp [IncomeOp.isBulk] at hop
  | create fid fts c =>
    simp only [IncomeOp.step, create_income]
    cases hany : db.income.any (fun d => d.month == c.month) with
    | true => simpa [hany] using h
    | false =>
      simp only [hany, Bool.false_eq_true, if_false]
      unfold monthsNodup at h ⊢
      rw [List.map_append]
      refine List.nodup_append.mpr ⟨h, List.nodup_singleton _, ?_⟩
      intro m hm hm'
      simp only [List.map_cons, List.map_nil, List.mem_singleton] at hm'
      obtain ⟨d, hd, rfl⟩ := List.mem_map.mp hm
      have hne := List.any_eq_false.mp hany d hd
      rw [hm'] at hne
      exact hne (by simp [mkIncome])
  | update month u =>
    simp only [IncomeOp.step, update_income]
    by_cases hemp : u.isEmpty = true
    · simpa [hemp] using h
    · rw [if_neg hemp]
      cases hu : updateFirst (fun d => d.month == month) u.applyTo db.income with
      | none => simpa using h
      | some pr =>
        obtain ⟨r, l⟩ := pr
        unfold monthsNodup at h ⊢
        simpa [updateFirst_map_eq _ u.applyTo IncomeDoc.month (fun d => rfl) hu] using h
  | delete month =>
    simp only [IncomeOp.step, delete_income]
    cases hd : deleteFirst (fun d => d.month == month) db.income with
    | none => simpa using h
    | some l =>
      unfold monthsNodup at h ⊢
      exact List.Nodup.sublist ((deleteFirst_sublist _ hd).map IncomeDoc.month) h
  | seed fS fI =>
    simp only [IncomeOp.step, seed_data]
    by_cases hc : db.spendings.length > 0 ∨ db.income.length > 0
    · simpa [hc] using h
    · rw [if_neg hc]
      have hiz : db.income = [] :=
        List.length_eq_zero.mp (Nat.eq_zero_of_not_pos (not_or.mp hc).2)
      unfold monthsNodup
      simp only [hiz, List.nil_append]
      rw [seedIncomeDocs_map_month]
      exact initial_income_months_nodup

/-- C1 (counterexample): the claim quantifies over sequences that include
`bulkCreate`, but a single bulk income create of two same-month items,
starting from the empty store, leaves two income records with month
`2025-01` — the one-record-per-month invariant fails. -/
theorem bulk_create_breaks_month_uniqueness :
    ¬ monthsNodup (runIncomeOps emptyDB
      [.bulkCreate freshGen [⟨"2025-01", 1, 0, 0⟩, ⟨"2025-01", 2, 0, 0⟩]]).income := by
  simp only [monthsNodup]
  decide

/-- C1 (amended): for every sequence of Income Ledger operations drawn from
create, update, delete and seed — excluding bulkCreate, which performs no
uniqueness check — starting from the empty store, the income collection
holds at most one record per distinct month value. -/
theorem month_uniqueness_without_bulk (ops : List IncomeOp)
    (hops : ∀ op ∈ ops, op.isBulk = false) :
    monthsNodup (runIncomeOps emptyDB ops).income := by
  have aux : ∀ (l : List IncomeOp) (db : DB), (∀ op ∈ l, op.isBulk = false) →
      monthsNodup db.income → monthsNodup (runIncomeOps db l).income := by
    intro l
    induction l with
    | nil => intro db _ h; exact h
    | cons op rest ih =>
      intro db hl h
      have hstep : runIncomeOps db (op :: rest) = runIncomeOps (op.step db) rest := by
        simp [runIncomeOps]
      rw [hstep]
      exact ih _ (fun o ho => hl o (List.mem_cons.mpr (Or.inr ho)))
        (monthsNodup_step db op (hl op (List.mem_cons_self _ _)) h)
  exact aux ops emptyDB hops (by simp [emptyDB, monthsNodup])

/-- C1 (witness): the amended invariant holds after a concrete bulk-free
sequence of create, update, delete and create operations. -/
theorem month_uniqueness_without_bulk_witness :
    (∀ op ∈ c1Ops, op.isBulk = false) ∧
      monthsNodup (runIncomeOps emptyDB c1Ops).income :=
  have hops : ∀ op ∈ c1Ops, IncomeOp.isBulk op = false := by
    intro op hop
    simp only [c1Ops, List.mem_cons, List.not_mem_nil, or_false] at hop
    rcases hop with rfl | rfl | rfl | rfl | rfl <;> rfl
  ⟨hops, month_uniqueness_without_bulk c1Ops hops⟩

theorem seedSpendingDocs_length (fS : ℕ → String × String) :
    (seedSpendingDocs fS).length = 379 := by
  simp [seedSpendingDocs, List.length_map, List.enum_length, initial_spendings_length]

theorem seedIncomeDocs_length (fI : ℕ → String × String) :
    (seedIncomeDocs fI).length = 11 := by
  simp [seedIncomeDocs, List.length_map, List.enum_length, initial_income_length]

/-- C2 (counterexample): with one spending record already stored, the seed
call creates nothing (the store is unchanged) yet reports counts (1, 0) —
the pre-existing counts — where the claim demands the newly-created counts
(0, 0). -/
theorem seed_noop_counts_not_zero :
    (seed_data dbOneSpending freshGen freshGen).2 = dbOneSpending ∧
      (seed_data dbOneSpending freshGen freshGen).1 =
        SeedResult.alreadyHasData 1 0 ∧
      SeedResult.alreadyHasData 1 0 ≠ SeedResult.alreadyHasData 0 0 := by
  refine ⟨by decide, by decide, by decide⟩

/-- C2 (amended): the seed operation reports the newly-created counts only
on the insert path (both ledgers empty, counts 379 and 11); on the no-op
path it reports the pre-existing record counts of each ledger — at least
one of which is nonzero — and creates nothing. -/
theorem seed_counts (db : DB) (fS fI : ℕ → String × String) :
    (db.spendings = [] ∧ db.income = [] →
      seed_data db fS fI =
        (.seeded (seedSpendingDocs fS).length (seedIncomeDocs fI).length,
         ⟨seedSpendingDocs fS, seedIncomeDocs fI⟩) ∧
      (seedSpendingDocs fS).length = 379 ∧ (seedIncomeDocs fI).length = 11) ∧
    (db.spendings ≠ [] ∨ db.income ≠ [] →
      seed_data db fS fI =
        (.alreadyHasData db.spendings.length db.income.length, db)) := by
  constructor
  · rintro ⟨hs, hi⟩
    refine ⟨?_, seedSpendingDocs_length fS, seedIncomeDocs_length fI⟩
    rw [seed_data]
    simp [hs, hi]
  · intro h
    have hpos : db.spendings.length > 0 ∨ db.income.length > 0 := by
      rcases h with h | h
      · exact Or.inl (List.length_pos.mpr h)
      · exact Or.inr (List.length_pos.mpr h)
    rw [seed_data]
    simp only [if_pos hpos]

/-- C2 (witness): from the empty store the seed call reports created
counts 379 and 11. -/
theorem seed_counts_witness :
    (emptyDB.spendings = [] ∧ emptyDB.income = []) ∧
      (seed_data emptyDB freshGen freshGen).1 = SeedResult.seeded 379 11 := by
  have h := (seed_counts emptyDB freshGen freshGen).1 ⟨rfl, rfl⟩
  refine ⟨⟨rfl, rfl⟩, ?_⟩
  rw [h.1]
  rw [seedSpendingDocs_length, seedIncomeDocs_length]

/-- C7: the seed endpoint is a guarded, idempotent load: with any existing
record it inserts nothing, leaves both ledgers unchanged and reports the
existing counts; from an all-empty store it inserts exactly the fixed
built-in dataset (379 spending documents, 11 income documents); and a
second seed call immediately after a first one never changes the store. -/
theorem seed_idempotent (db : DB) (fS fI fS' fI' : ℕ → String × String) :
    (db.spendings ≠ [] ∨ db.income ≠ [] →
      seed_data db fS fI = (.alreadyHasData db.spendings.length db.income.length, db)) ∧
    (db.spendings = [] → db.income = [] →
      (seed_data db fS fI).2 = ⟨seedSpendingDocs fS, seedIncomeDocs fI⟩ ∧
      (seed_data db fS fI).1 = .seeded 379 11) ∧
    (seed_data (seed_data db fS fI).2 fS' fI').2 = (seed_data db fS fI).2 := by
  have hnoop : ∀ (d : DB) (g g' : ℕ → String × String),
      d.spendings.length > 0 ∨ d.income.length > 0 →
      seed_data d g g' = (.alreadyHasData d.spendings.length d.income.length, d) := by
    intro d g g' hpos
    rw [seed_data]
    simp only [if_pos hpos]
  refine ⟨?_, ?_, ?_⟩
  · intro h
    refine hnoop db fS fI ?_
    rcases h with h | h
    · exact Or.inl (List.length_pos.mpr h)
    · exact Or.inr (List.length_pos.mpr h)
  · intro hs hi
    rw [seed_data]
    simp only [hs, hi]
    constructor
    · simp
    · simp [seedSpendingDocs_length, seedIncomeDocs_length]
  · by_cases hboth : db.spendings = [] ∧ db.income = []
    · obtain ⟨hs, hi⟩ := hboth
      have h2 : (seed_data db fS fI).2 = ⟨seedSpendingDocs fS, seedIncomeDocs fI⟩ := by
        rw [seed_data]; simp [hs, hi]
      rw [h2]
      have : (seedSpendingDocs fS).length > 0 := by
        rw [seedSpendingDocs_length]; decide
      rw [hnoop _ fS' fI' (Or.inl this)]
    · have hpos : db.spendings.length > 0 ∨ db.income.length > 0 := by
        rcases not_and_or.mp hboth with h | h
        · exact Or.inl (List.length_pos.mpr h)
        · exact Or.inr (List.length_pos.mpr h)
      rw [hnoop db fS fI hpos]
      rw [hnoop db fS' fI' hpos]

/-- C7 (witness): seeding the empty store inserts the fixed dataset, and a
second seed immediately after changes nothing. -/
theorem seed_idempotent_witness :
    (emptyDB.spendings = [] ∧ emptyDB.income = []) ∧
      (seed_data emptyDB freshGen freshGen).1 = SeedResult.seeded 379 11 ∧
      (seed_data (seed_data emptyDB freshGen freshGen).2 freshGen freshGen).2
        = (seed_data emptyDB freshGen freshGen).2 := by
  have h := seed_idempotent emptyDB freshGen freshGen freshGen freshGen
  exact ⟨⟨rfl, rfl⟩, (h.2.1 rfl rfl).2, h.2.2⟩

/-- C3 (counterexample): the statistics endpoint reads each collection
through the same capped `to_list` as the list endpoints. With 1001 income
documents stored it reports incomeMonths = 1000, not the number of income
records (1001), so the claimed equalities do not hold for every contents
of the ledgers. -/
theorem statistics_cap_counterexample :
    (get_statistics dbOverCap).income_months = 1000 ∧
      dbOverCap.income.length = 1001 ∧
      get_statistics dbOverCap ≠ statsSpec dbOverCap := by
  have h1 : (get_statistics dbOverCap).income_months = 1000 := by
    have hdef : (get_statistics dbOverCap).income_months
        = ((List.replicate 1001 someIncomeDoc).take 1000).length := rfl
    rw [hdef, List.take_replicate, List.length_replicate]
    exact min_eq_left (by norm_num)
  have h2 : dbOverCap.income.length = 1001 := by
    show (List.replicate 1001 someIncomeDoc).length = 1001
    rw [List.length_replicate]
  refine ⟨h1, h2, fun he => ?_⟩
  have hm : (get_statistics dbOverCap).income_months
      = (statsSpec dbOverCap).income_months := by rw [he]
  rw [h1] at hm
  have hspec : (statsSpec dbOverCap).income_months = 1001 := h2
  rw [hspec] at hm
  exact absurd hm (by decide)

/-- C3 (amended): whenever the ledgers fit inside the statistics
endpoint's read caps (at most 10000 spending and 1000 income documents),
the returned aggregate is exactly the spec-side aggregate: totalSpending,
totalIncome, totalSaved and totalHome are the sums over all records with a
missing numeric sub-field contributing 0 rather than an error, netBalance
is totalIncome minus totalSpending, and spendingCount / incomeMonths are
the record counts; beyond the caps only the first 10000 resp. 1000
documents are aggregated. -/
theorem statistics_correct (db : DB)
    (hs : db.spendings.length ≤ 10000) (hi : db.income.length ≤ 1000) :
    get_statistics db = statsSpec db := by
  simp only [get_statistics, statsSpec]
  rw [List.take_of_length_le hs, List.take_of_length_le hi]

/-- C3 (witness): on a store with one spending record of amount 100 and
one income record (200 income, 10 saved, 5 home) the statistics call
returns totals 100/200/10/5, net balance 100 and both counts 1. -/
theorem statistics_correct_witness :
    (dbSample.spendings.length ≤ 10000 ∧ dbSample.income.length ≤ 1000) ∧
      get_statistics dbSample = statsSpec dbSample ∧
      get_statistics dbSample = ⟨100, 200, 10, 5, 100, 1, 1⟩ :=
  ⟨⟨by decide, by decide⟩,
   statistics_correct dbSample (by decide) (by decide), by
    rw [statistics_correct dbSample (by decide) (by decide)]
    norm_num [statsSpec, dbSample, someSpendingDoc, someIncomeDoc, Stats.mk.injEq]⟩

/-- C4: bulk income create performs no uniqueness check of any kind: for
every store and every batch — including batches whose items repeat a month
or collide with stored months — it reports a created count equal to the
batch length, appends exactly one document per item with item i receiving
the fresh id (fresh i).1 and timestamp (fresh i).2, and touches nothing
else. (Single income create, by contrast, rejects an existing month; see
C6.) -/
theorem bulk_income_creates_all (db : DB) (fresh : ℕ → String × String)
    (cs : List IncomeCreate) :
    (create_bulk_income db fresh cs).1 = cs.length ∧
    (create_bulk_income db fresh cs).2.income
      = db.income ++ cs.enum.map (fun p => mkIncome (fresh p.1).1 (fresh p.1).2 p.2) ∧
    (create_bulk_income db fresh cs).2.spendings = db.spendings ∧
    (∀ i c, cs[i]? = some c →
      (create_bulk_income db fresh cs).2.income[db.income.length + i]?
        = some (mkIncome (fresh i).1 (fresh i).2 c)) := by
  refine ⟨?_, rfl, rfl, ?_⟩
  · simp [create_bulk_income, List.length_map, List.enum_length]
  · intro i c hc
    show (db.income ++ cs.enum.map
        (fun p => mkIncome (fresh p.1).1 (fresh p.1).2 p.2))[db.income.length + i]? = _
    rw [List.getElem?_append_right (Nat.le_add_right _ _)]
    simp only [Nat.add_sub_cancel_left]
    rw [List.getElem?_map, List.getElem?_enum, hc]
    rfl

/-- C4 (witness): a batch of two same-month items from the empty store is
fully inserted; the second item sits at index 1 with the fresh id of index
1. -/
theorem bulk_income_creates_all_witness :
    ([(⟨"2025-01", 1, 0, 0⟩ : IncomeCreate), ⟨"2025-01", 2, 0, 0⟩][1]?
        = some (⟨"2025-01", 2, 0, 0⟩ : IncomeCreate)) ∧
      (create_bulk_income emptyDB freshGen
        [⟨"2025-01", 1, 0, 0⟩, ⟨"2025-01", 2, 0, 0⟩]).1 = 2 ∧
      (create_bulk_income emptyDB freshGen
          [⟨"2025-01", 1, 0, 0⟩, ⟨"2025-01", 2, 0, 0⟩]).2.income[emptyDB.income.length + 1]?
        = some (mkIncome (freshGen 1).1 (freshGen 1).2 ⟨"2025-01", 2, 0, 0⟩) := by
  have h := bulk_income_creates_all emptyDB freshGen
    [⟨"2025-01", 1, 0, 0⟩, ⟨"2025-01", 2, 0, 0⟩]
  exact ⟨by decide, h.1, h.2.2.2 1 ⟨"2025-01", 2, 0, 0⟩ (by decide)⟩

/-- C5: for both ledgers, update fails with the empty-update client error
whenever every updatable field of the request is absent or null — whether
or not a matching record exists; with a nonempty change-set it fails
not-found when no record matches the id/month, and returns ok on a match.
Both error paths leave the store unchanged. -/
theorem update_error_paths (db : DB) (sid month : String)
    (uS : SpendingUpdate) (uI : IncomeUpdate) :
    (uS.category = none ∧ uS.date = none ∧ uS.amount = none →
      update_spending db sid uS = (.error (.badRequest "No fields to update"), db)) ∧
    (¬(uS.category = none ∧ uS.date = none ∧ uS.amount = none) →
      (∀ d ∈ db.spendings, d.id ≠ sid) →
      update_spending db sid uS = (.error (.notFound "Spending not found"), db)) ∧
    (¬(uS.category = none ∧ uS.date = none ∧ uS.amount = none) →
      (∃ d ∈ db.spendings, d.id = sid) →
      ∃ r db', update_spending db sid uS = (.ok r, db')) ∧
    (uI.income = none ∧ uI.saved = none ∧ uI.home = none →
      update_income db month uI = (.error (.badRequest "No fields to update"), db)) ∧
    (¬(uI.income = none ∧ uI.saved = none ∧ uI.home = none) →
      (∀ d ∈ db.income, d.month ≠ month) →
      update_income db month uI = (.error (.notFound "Income record not found"), db)) ∧
    (¬(uI.income = none ∧ uI.saved = none ∧ uI.home = none) →
      (∃ d ∈ db.income, d.month = month) →
      ∃ r db', update_income db month uI = (.ok r, db')) := by
  refine ⟨?_, ?_, ?_, ?_, ?_, ?_⟩
  · intro h
    rw [update_spending, if_pos ((spendingUpdate_isEmpty_iff uS).mpr h)]
  · intro hne hnomatch
    have hemp : ¬ uS.isEmpty = true := fun h => hne ((spendingUpdate_isEmpty_iff uS).mp h)
    have hnone : updateFirst (fun d => d.id == sid) uS.applyTo db.spendings = none :=
      (updateFirst_eq_none_iff _ _ _).mpr fun d hd =>
        beq_eq_false_iff_ne.mpr (hnomatch d hd)
    rw [update_spending, if_neg hemp, hnone]
  · intro hne hmatch
    have hemp : ¬ uS.isEmpty = true := fun h => hne ((spendingUpdate_isEmpty_iff uS).mp h)
    obtain ⟨d, hd, hid⟩ := hmatch
    cases hu : updateFirst (fun d => d.id == sid) uS.applyTo db.spendings with
    | none =>
      have := (updateFirst_eq_none_iff _ _ _).mp hu d hd
      rw [beq_eq_false_iff_ne] at this
      exact absurd hid this
    | some pr =>
      obtain ⟨r, l⟩ := pr
      exact ⟨r, { db with spendings := l }, by rw [update_spending, if_neg hemp, hu]⟩
  · intro h
    rw [update_income, if_pos ((incomeUpdate_isEmpty_iff uI).mpr h)]
  · intro hne hnomatch
    have hemp : ¬ uI.isEmpty = true := fun h => hne ((incomeUpdate_isEmpty_iff uI).mp h)
    have hnone : updateFirst (fun d => d.month == month) uI.applyTo db.income = none :=
      (updateFirst_eq_none_iff _ _ _).mpr fun d hd =>
        beq_eq_false_iff_ne.mpr (hnomatch d hd)
    rw [update_income, if_neg hemp, hnone]
  · intro hne hmatch
    have hemp : ¬ uI.isEmpty = true := fun h => hne ((incomeUpdate_isEmpty_iff uI).mp h)
    obtain ⟨d, hd, hm⟩ := hmatch
    cases hu : updateFirst (fun d => d.month == month) uI.applyTo db.income with
    | none =>
      have := (updateFirst_eq_none_iff _ _ _).mp hu d hd
      rw [beq_eq_false_iff_ne] at this
      exact absurd hm this
    | some pr =>
      obtain ⟨r, l⟩ := pr
      exact ⟨r, { db with income := l }, by rw [update_income, if_neg hemp, hu]⟩

/-- C5 (witness): the all-null spending update fails with the empty-update
error on a store that does contain the addressed record, and the all-null
income update fails the same way on a month that is absent. -/
theorem update_error_paths_witness :
    ((⟨none, none, none⟩ : SpendingUpdate).category = none ∧
      (⟨none, none, none⟩ : SpendingUpdate).date = none ∧
      (⟨none, none, none⟩ : SpendingUpdate).amount = none) ∧
      update_spending dbSample "s1" ⟨none, none, none⟩
        = (.error (.badRequest "No fields to update"), dbSample) ∧
      update_income dbOneSpending "2025-01" ⟨none, none, none⟩
        = (.error (.badRequest "No fields to update"), dbOneSpending) := by
  have h1 := (update_error_paths dbSample "s1" "2025-01"
    ⟨none, none, none⟩ ⟨none, none, none⟩).1 ⟨rfl, rfl, rfl⟩
  have h2 := (update_error_paths dbOneSpending "x" "2025-01"
    ⟨none, none, none⟩ ⟨none, none, none⟩).2.2.2.1 ⟨rfl, rfl, rfl⟩
  exact ⟨⟨rfl, rfl, rfl⟩, h1, h2⟩

/-- C6: starting from a store holding neither month, the first income
create succeeds and inserts its document; if the second request reuses the
same month it fails with the duplicate-month client error and the store is
exactly what the first call left (the failed call writes nothing); if the
months differ, the second create succeeds as well. -/
theorem create_income_month_conflict (db : DB) (c1 c2 : IncomeCreate)
    (f1 t1 f2 t2 : String)
    (hfresh : ∀ d ∈ db.income, d.month ≠ c1.month ∧ d.month ≠ c2.month) :
    create_income db f1 t1 c1
      = (.ok (mkIncome f1 t1 c1),
         { db with income := db.income ++ [mkIncome f1 t1 c1] }) ∧
    (c1.month = c2.month →
      create_income (create_income db f1 t1 c1).2 f2 t2 c2
        = (.error (.badRequest
            "Income record for this month already exists. Use PUT to update."),
           (create_income db f1 t1 c1).2)) ∧
    (c1.month ≠ c2.month →
      create_income (create_income db f1 t1 c1).2 f2 t2 c2
        = (.ok (mkIncome f2 t2 c2),
           { db with income := db.income ++ [mkIncome f1 t1 c1] ++ [mkIncome f2 t2 c2] })) := by
  have hany1 : db.income.any (fun d => d.month == c1.month) = false :=
    List.any_eq_false.mpr fun d hd hbeq =>
      (hfresh d hd).1 (by simpa using hbeq)
  have h1 : create_income db f1 t1 c1
      = (.ok (mkIncome f1 t1 c1),
         { db with income := db.income ++ [mkIncome f1 t1 c1] }) := by
    rw [create_income]
    simp only [hany1, Bool.false_eq_true, if_false]
  refine ⟨h1, ?_, ?_⟩
  · intro heq
    rw [h1]
    rw [create_income]
    have hany2 : (db.income ++ [mkIncome f1 t1 c1]).any
        (fun d => d.month == c2.month) = true := by
      rw [List.any_append]
      refine Bool.or_eq_true_iff.mpr (Or.inr ?_)
      simp [mkIncome, heq]
    simp only [hany2, if_true]
  · intro hne
    rw [h1]
    rw [create_income]
    have hany2 : (db.income ++ [mkIncome f1 t1 c1]).any
        (fun d => d.month == c2.month) = false := by
      rw [List.any_append]
      refine Bool.or_eq_false_iff.mpr ⟨?_, ?_⟩
      · exact List.any_eq_false.mpr fun d hd hbeq =>
          (hfresh d hd).2 (by simpa using hbeq)
      · simp [mkIncome]
        exact hne
    simp only [hany2, Bool.false_eq_true, if_false]

/-- C6 (witness): from the empty store, creating month 2025-01 twice makes
the second call fail with the duplicate error and leave the store as the
first call made it, while a second create of 2025-02 succeeds. -/
theorem create_income_month_conflict_witness :
    (∀ d ∈ emptyDB.income,
        d.month ≠ ("2025-01" : String) ∧ d.month ≠ ("2025-01" : String)) ∧
      create_income (create_income emptyDB "i1" "t1" ⟨"2025-01", 1, 0, 0⟩).2
          "i2" "t2" ⟨"2025-01", 2, 0, 0⟩
        = (.error (.badRequest
            "Income record for this month already exists. Use PUT to update."),
           (create_income emptyDB "i1" "t1" ⟨"2025-01", 1, 0, 0⟩).2) ∧
      (create_income (create_income emptyDB "i1" "t1" ⟨"2025-01", 1, 0, 0⟩).2
          "i2" "t2" ⟨"2025-02", 2, 0, 0⟩).1
        = .ok (mkIncome "i2" "t2" ⟨"2025-02", 2, 0, 0⟩) := by
  have hfr : ∀ d ∈ emptyDB.income,
      d.month ≠ ("2025-01" : String) ∧ d.month ≠ ("2025-01" : String) := by
    intro d hd; exact absurd hd (List.not_mem_nil d)
  have hfr2 : ∀ d ∈ emptyDB.income,
      d.month ≠ ("2025-01" : String) ∧ d.month ≠ ("2025-02" : String) := by
    intro d hd; exact absurd hd (List.not_mem_nil d)
  have hdup := (create_income_month_conflict emptyDB ⟨"2025-01", 1, 0, 0⟩
    ⟨"2025-01", 2, 0, 0⟩ "i1" "t1" "i2" "t2" hfr).2.1 rfl
  have hok := (create_income_month_conflict emptyDB ⟨"2025-01", 1, 0, 0⟩
    ⟨"2025-02", 2, 0, 0⟩ "i1" "t1" "i2" "t2" hfr2).2.2 (by decide)
  exact ⟨hfr, hdup, by rw [hok]⟩

/-- C8: delete (spending by id, income by month) succeeds and removes the
first matching record exactly when such a record existed before the call;
with no match it fails not-found and leaves the store unchanged, and —
when the key matched at most one record — deleting the same key again
right after a successful delete fails not-found and changes nothing. -/
theorem delete_reporting (db : DB) (sid month : String) :
    ((∃ d ∈ db.spendings, d.id = sid) →
      ∃ l₁ d l₂, db.spendings = l₁ ++ d :: l₂ ∧ d.id = sid ∧
        (∀ y ∈ l₁, y.id ≠ sid) ∧
        delete_spending db sid
          = (.ok "Spending deleted successfully", ⟨l₁ ++ l₂, db.income⟩)) ∧
    ((∀ d ∈ db.spendings, d.id ≠ sid) →
      delete_spending db sid = (.error (.notFound "Spending not found"), db)) ∧
    (db.spendings.countP (fun d => d.id == sid) ≤ 1 →
      (∃ d ∈ db.spendings, d.id = sid) →
      delete_spending (delete_spending db sid).2 sid
        = (.error (.notFound "Spending not found"), (delete_spending db sid).2)) ∧
    ((∃ d ∈ db.income, d.month = month) →
      ∃ l₁ d l₂, db.income = l₁ ++ d :: l₂ ∧ d.month = month ∧
        (∀ y ∈ l₁, y.month ≠ month) ∧
        delete_income db month
          = (.ok "Income record deleted successfully", ⟨db.spendings, l₁ ++ l₂⟩)) ∧
    ((∀ d ∈ db.income, d.month ≠ month) →
      delete_income db month = (.error (.notFound "Income record not found"), db)) ∧
    (db.income.countP (fun d => d.month == month) ≤ 1 →
      (∃ d ∈ db.income, d.month = month) →
      delete_income (delete_income db month).2 month
        = (.error (.notFound "Income record not found"), (delete_income db month).2)) := by
  have hSnotfound : ∀ (dbx : DB), (∀ d ∈ dbx.spendings, d.id ≠ sid) →
      delete_spending dbx sid = (.error (.notFound "Spending not found"), dbx) := by
    intro dbx h
    have hnone : deleteFirst (fun d => d.id == sid) dbx.spendings = none :=
      (deleteFirst_eq_none_iff _ _).mpr fun d hd => beq_eq_false_iff_ne.mpr (h d hd)
    rw [delete_spending, hnone]
  have hSfound : (∃ d ∈ db.spendings, d.id = sid) →
      ∃ l₁ d l₂, db.spendings = l₁ ++ d :: l₂ ∧ d.id = sid ∧
        (∀ y ∈ l₁, y.id ≠ sid) ∧
        delete_spending db sid
          = (.ok "Spending deleted successfully", ⟨l₁ ++ l₂, db.income⟩) := by
    rintro ⟨d0, hd0, hid0⟩
    have hsome : (deleteFirst (fun d => d.id == sid) db.spendings).isSome = true :=
      (deleteFirst_isSome_iff _ _).mpr ⟨d0, hd0, by simpa using hid0⟩
    obtain ⟨l', heq⟩ := Option.isSome_iff_exists.mp hsome
    obtain ⟨l₁, x, l₂, hsplit, hpx, hl₁, rfl⟩ := deleteFirst_eq_some _ heq
    refine ⟨l₁, x, l₂, hsplit, by simpa using hpx,
      fun y hy => beq_eq_false_iff_ne.mp (hl₁ y hy), ?_⟩
    rw [delete_spending, heq]
  have hInotfound : ∀ (dbx : DB), (∀ d ∈ dbx.income, d.month ≠ month) →
      delete_income dbx month = (.error (.notFound "Income record not found"), dbx) := by
    intro dbx h
    have hnone : deleteFirst (fun d => d.month == month) dbx.income = none :=
      (deleteFirst_eq_none_iff _ _).mpr fun d hd => beq_eq_false_iff_ne.mpr (h d hd)
    rw [delete_income, hnone]
  have hIfound : (∃ d ∈ db.income, d.month = month) →
      ∃ l₁ d l₂, db.income = l₁ ++ d :: l₂ ∧ d.month = month ∧
        (∀ y ∈ l₁, y.month ≠ month) ∧
        delete_income db month
          = (.ok "Income record deleted successfully", ⟨db.spendings, l₁ ++ l₂⟩) := by
    rintro ⟨d0, hd0, hm0⟩
    have hsome : (deleteFirst (fun d => d.month == month) db.income).isSome = true :=
      (deleteFirst_isSome_iff _ _).mpr ⟨d0, hd0, by simpa using hm0⟩
    obtain ⟨l', heq⟩ := Option.isSome_iff_exists.mp hsome
    obtain ⟨l₁, x, l₂, hsplit, hpx, hl₁, rfl⟩ := deleteFirst_eq_some _ heq
    refine ⟨l₁, x, l₂, hsplit, by simpa using hpx,
      fun y hy => beq_eq_false_iff_ne.mp (hl₁ y hy), ?_⟩
    rw [delete_income, heq]
  refine ⟨hSfound, fun h => hSnotfound db h, ?_, hIfound, fun h => hInotfound db h, ?_⟩
  · intro hcount hex
    obtain ⟨l₁, d, l₂, hsplit, hid, hl₁, hdel⟩ := hSfound hex
    rw [hsplit, List.countP_append, List.countP_cons_of_pos _ _ (by simpa using hid)]
      at hcount
    have hz1 : l₁.countP (fun d => d.id == sid) = 0 :=
      List.countP_eq_zero.mpr fun y hy => by
        simpa using beq_eq_false_iff_ne.mpr (hl₁ y hy)
    have hz2 : l₂.countP (fun d => d.id == sid) = 0 := by omega
    have hall : ∀ y ∈ l₁ ++ l₂, y.id ≠ sid := by
      intro y hy
      rcases List.mem_append.mp hy with hy | hy
      · exact hl₁ y hy
      · have := List.countP_eq_zero.mp hz2 y hy
        simpa [beq_eq_false_iff_ne] using this
    rw [hdel]
    exact hSnotfound ⟨l₁ ++ l₂, db.income⟩ hall
  · intro hcount hex
    obtain ⟨l₁, d, l₂, hsplit, hm, hl₁, hdel⟩ := hIfound hex
    rw [hsplit, List.countP_append, List.countP_cons_of_pos _ _ (by simpa using hm)]
      at hcount
    have hz1 : l₁.countP (fun d => d.month == month) = 0 :=
      List.countP_eq_zero.mpr fun y hy => by
        simpa using beq_eq_false_iff_ne.mpr (hl₁ y hy)
    have hz2 : l₂.countP (fun d => d.month == month) = 0 := by omega
    have hall : ∀ y ∈ l₁ ++ l₂, y.month ≠ month := by
      intro y hy
      rcases List.mem_append.mp hy with hy | hy
      · exact hl₁ y hy
      · have := List.countP_eq_zero.mp hz2 y hy
        simpa [beq_eq_false_iff_ne] using this
    rw [hdel]
    exact hInotfound ⟨db.spendings, l₁ ++ l₂⟩ hall

/-- C8 (witness): deleting spending `s1` from the sample store succeeds,
and deleting it a second time fails not-found and leaves the store as the
first delete left it. -/
theorem delete_reporting_witness :
    dbSample.spendings.countP (fun d => d.id == "s1") ≤ 1 ∧
      (∃ d ∈ dbSample.spendings, d.id = "s1") ∧
      delete_spending (delete_spending dbSample "s1").2 "s1"
        = (.error (.notFound "Spending not found"),
           (delete_spending dbSample "s1").2) :=
  ⟨by decide, by decide,
   (delete_reporting dbSample "s1" "2025-01").2.2.1 (by decide) (by decide)⟩

/-- C9: a successful partial update rewrites exactly the first matching
record, applying only the fields explicitly present and non-null in the
request; the record's id and creation timestamp (and the month key for
income records), every omitted field, and every other record of both
collections are left unchanged. -/
theorem update_partial_frame (db : DB) (sid month : String)
    (uS : SpendingUpdate) (uI : IncomeUpdate) (r : SpendingDoc) (db' : DB)
    (ri : IncomeDoc) (dbi' : DB)
    (hS : update_spending db sid uS = (.ok r, db'))
    (hI : update_income db month uI = (.ok ri, dbi')) :
    (∃ l₁ d l₂, db.spendings = l₁ ++ d :: l₂ ∧ d.id = sid ∧
      (∀ y ∈ l₁, y.id ≠ sid) ∧
      r = uS.applyTo d ∧ db'.spendings = l₁ ++ uS.applyTo d :: l₂ ∧
      db'.income = db.income ∧
      (uS.applyTo d).id = d.id ∧ (uS.applyTo d).created_at = d.created_at ∧
      (uS.category = none → (uS.applyTo d).category = d.category) ∧
      (∀ v, uS.category = some v → (uS.applyTo d).category = v) ∧
      (uS.date = none → (uS.applyTo d).date = d.date) ∧
      (∀ v, uS.date = some v → (uS.applyTo d).date = v) ∧
      (uS.amount = none → (uS.applyTo d).amount = d.amount) ∧
      (∀ v, uS.amount = some v → (uS.applyTo d).amount = some v)) ∧
    (∃ l₁ d l₂, db.income = l₁ ++ d :: l₂ ∧ d.month = month ∧
      (∀ y ∈ l₁, y.month ≠ month) ∧
      ri = uI.applyTo d ∧ dbi'.income = l₁ ++ uI.applyTo d :: l₂ ∧
      dbi'.spendings = db.spendings ∧
      (uI.applyTo d).id = d.id ∧ (uI.applyTo d).month = d.month ∧
      (uI.applyTo d).created_at = d.created_at ∧
      (uI.income = none → (uI.applyTo d).income = d.income) ∧
      (∀ v, uI.income = some v → (uI.applyTo d).income = some v) ∧
      (uI.saved = none → (uI.applyTo d).saved = d.saved) ∧
      (∀ v, uI.saved = some v → (uI.applyTo d).saved = some v) ∧
      (uI.home = none → (uI.applyTo d).home = d.home) ∧
      (∀ v, uI.home = some v → (uI.applyTo d).home = some v)) := by
  constructor
  · rw [update_spending] at hS
    by_cases hemp : uS.isEmpty = true
    · rw [if_pos hemp] at hS; exact absurd hS (by simp)
    · rw [if_neg hemp] at hS
      cases hu : updateFirst (fun d => d.id == sid) uS.applyTo db.spendings with
      | none => rw [hu] at hS; exact absurd hS (by simp)
      | some pr =>
        obtain ⟨r₀, l⟩ := pr
        rw [hu] at hS
        simp only [Prod.mk.injEq, Except.ok.injEq] at hS
        obtain ⟨rfl, rfl⟩ := hS
        obtain ⟨l₁, x, l₂, hsplit, hpx, hl₁, rfl, rfl⟩ := updateFirst_eq_some _ _ hu
        refine ⟨l₁, x, l₂, hsplit, by simpa using hpx,
          fun y hy => beq_eq_false_iff_ne.mp (hl₁ y hy),
          rfl, rfl, rfl, rfl, rfl, ?_, ?_, ?_, ?_, ?_, ?_⟩
        · intro h; simp [SpendingUpdate.applyTo, h]
        · intro v h; simp [SpendingUpdate.applyTo, h]
        · intro h; simp [SpendingUpdate.applyTo, h]
        · intro v h; simp [SpendingUpdate.applyTo, h]
        · intro h; simp [SpendingUpdate.applyTo, h]
        · intro v h; simp [SpendingUpdate.applyTo, h]
  · rw [update_income] at hI
    by_cases hemp : uI.isEmpty = true
    · rw [if_pos hemp] at hI; exact absurd hI (by simp)
    · rw [if_neg hemp] at hI
      cases hu : updateFirst (fun d => d.month == month) uI.applyTo db.income with
      | none => rw [hu] at hI; exact absurd hI (by simp)
      | some pr =>
        obtain ⟨r₀, l⟩ := pr
        rw [hu] at hI
        simp only [Prod.mk.injEq, Except.ok.injEq] at hI
        obtain ⟨rfl, rfl⟩ := hI
        obtain ⟨l₁, x, l₂, hsplit, hpx, hl₁, rfl, rfl⟩ := updateFirst_eq_some _ _ hu
        refine ⟨l₁, x, l₂, hsplit, by simpa using hpx,
          fun y hy => beq_eq_false_iff_ne.mp (hl₁ y hy),
          rfl, rfl, rfl, rfl, rfl, rfl, ?_, ?_, ?_, ?_, ?_, ?_⟩
        · intro h; simp [IncomeUpdate.applyTo, h]
        · intro v h; simp [IncomeUpdate.applyTo, h]
        · intro h; simp [IncomeUpdate.applyTo, h]
        · intro v h; simp [IncomeUpdate.applyTo, h]
        · intro h; simp [IncomeUpdate.applyTo, h]
        · intro v h; simp [IncomeUpdate.applyTo, h]

/-- C9 (witness): a concrete category-only spending update and income-only
income update on the sample store change exactly that field of exactly the
addressed record, preserving id, timestamp and month. -/
theorem update_partial_frame_witness :
    update_spending dbSample "s1" ⟨some "Taxi", none, none⟩
        = (.ok ⟨"s1", "Taxi", "2025-01-01", some 100, "t0"⟩,
           ⟨[⟨"s1", "Taxi", "2025-01-01", some 100, "t0"⟩], [someIncomeDoc]⟩) ∧
      update_income dbSample "2025-01" ⟨some 300, none, none⟩
        = (.ok ⟨"i1", "2025-01", some 300, some 10, some 5, "t0"⟩,
           ⟨[someSpendingDoc], [⟨"i1", "2025-01", some 300, some 10, some 5, "t0"⟩]⟩) ∧
      ((∃ l₁ d l₂, dbSample.spendings = l₁ ++ d :: l₂ ∧ d.id = "s1" ∧
        (∀ y ∈ l₁, y.id ≠ "s1") ∧
        (⟨"s1", "Taxi", "2025-01-01", some 100, "t0"⟩ : SpendingDoc)
          = SpendingUpdate.applyTo ⟨some "Taxi", none, none⟩ d ∧
        (⟨[⟨"s1", "Taxi", "2025-01-01", some 100, "t0"⟩], [someIncomeDoc]⟩ : DB).spendings
          = l₁ ++ SpendingUpdate.applyTo ⟨some "Taxi", none, none⟩ d :: l₂ ∧
        (⟨[⟨"s1", "Taxi", "2025-01-01", some 100, "t0"⟩], [someIncomeDoc]⟩ : DB).income
          = dbSample.income ∧
        (SpendingUpdate.applyTo ⟨some "Taxi", none, none⟩ d).id = d.id ∧
        (SpendingUpdate.applyTo ⟨some "Taxi", none, none⟩ d).created_at = d.created_at ∧
        ((some "Taxi" : Option String) = none →
          (SpendingUpdate.applyTo ⟨some "Taxi", none, none⟩ d).category = d.category) ∧
        (∀ v, (some "Taxi" : Option String) = some v →
          (SpendingUpdate.applyTo ⟨some "Taxi", none, none⟩ d).category = v) ∧
        ((none : Option String) = none →
          (SpendingUpdate.applyTo ⟨some "Taxi", none, none⟩ d).date = d.date) ∧
        (∀ v, (none : Option String) = some v →
          (SpendingUpdate.applyTo ⟨some "Taxi", none, none⟩ d).date = v) ∧
        ((none : Option ℚ) = none →
          (SpendingUpdate.applyTo ⟨some "Taxi", none, none⟩ d).amount = d.amount) ∧
        (∀ v, (none : Option ℚ) = some v →
          (SpendingUpdate.applyTo ⟨some "Taxi", none, none⟩ d).amount = some v)) ∧
      (∃ l₁ d l₂, dbSample.income = l₁ ++ d :: l₂ ∧ d.month = "2025-01" ∧
        (∀ y ∈ l₁, y.month ≠ "2025-01") ∧
        (⟨"i1", "2025-01", some 300, some 10, some 5, "t0"⟩ : IncomeDoc)
          = IncomeUpdate.applyTo ⟨some 300, none, none⟩ d ∧
        (⟨[someSpendingDoc], [⟨"i1", "2025-01", some 300, some 10, some 5, "t0"⟩]⟩ : DB).income
          = l₁ ++ IncomeUpdate.applyTo ⟨some 300, none, none⟩ d :: l₂ ∧
        (⟨[someSpendingDoc], [⟨"i1", "2025-01", some 300, some 10, some 5, "t0"⟩]⟩ : DB).spendings
          = dbSample.spendings ∧
        (IncomeUpdate.applyTo ⟨some 300, none, none⟩ d).id = d.id ∧
        (IncomeUpdate.applyTo ⟨some 300, none, none⟩ d).month = d.month ∧
        (IncomeUpdate.applyTo ⟨some 300, none, none⟩ d).created_at = d.created_at ∧
        ((some 300 : Option ℚ) = none →
          (IncomeUpdate.applyTo ⟨some 300, none, none⟩ d).income = d.income) ∧
        (∀ v, (some 300 : Option ℚ) = some v →
          (IncomeUpdate.applyTo ⟨some 300, none, none⟩ d).income = some v) ∧
        ((none : Option ℚ) = none →
          (IncomeUpdate.applyTo ⟨some 300, none, none⟩ d).saved = d.saved) ∧
        (∀ v, (none : Option ℚ) = some v →
          (IncomeUpdate.applyTo ⟨some 300, none, none⟩ d).saved = some v) ∧
        ((none : Option ℚ) = none →
          (IncomeUpdate.applyTo ⟨some 300, none, none⟩ d).home = d.home) ∧
        (∀ v, (none : Option ℚ) = some v →
          (IncomeUpdate.applyTo ⟨some 300, none, none⟩ d).home = some v))) :=
  ⟨by rfl, by rfl,
   update_partial_frame dbSample "s1" "2025-01"
     ⟨some "Taxi", none, none⟩ ⟨some 300, none, none⟩
     ⟨"s1", "Taxi", "2025-01-01", some 100, "t0"⟩
     ⟨[⟨"s1", "Taxi", "2025-01-01", some 100, "t0"⟩], [someIncomeDoc]⟩
     ⟨"i1", "2025-01", some 300, some 10, some 5, "t0"⟩
     ⟨[someSpendingDoc], [⟨"i1", "2025-01", some 300, some 10, some 5, "t0"⟩]⟩
     (by rfl) (by rfl)⟩

/-- C10: when at least two income records share month m (reachable via
bulk create) and the change-set is nonempty, update by m succeeds and
rewrites exactly the first matching record — the number of records for m
is unchanged — delete by m succeeds and removes exactly one record for m
(at least one remains), and, within the 1000-document read cap, list
returns the whole collection including every duplicate. -/
theorem duplicate_months_behavior (db : DB) (m : String) (u : IncomeUpdate)
    (hdup : 2 ≤ db.income.countP (fun d => d.month == m))
    (hu : u.isEmpty = false)
    (hcap : db.income.length ≤ 1000) :
    get_income db = db.income ∧
    (∃ l₁ d l₂, db.income = l₁ ++ d :: l₂ ∧ d.month = m ∧
      (∀ y ∈ l₁, y.month ≠ m) ∧
      (update_income db m u).1 = .ok (u.applyTo d) ∧
      (update_income db m u).2.income = l₁ ++ u.applyTo d :: l₂ ∧
      (update_income db m u).2.income.countP (fun d => d.month == m)
        = db.income.countP (fun d => d.month == m)) ∧
    (∃ l₁ d l₂, db.income = l₁ ++ d :: l₂ ∧ d.month = m ∧
      (∀ y ∈ l₁, y.month ≠ m) ∧
      delete_income db m
        = (.ok "Income record deleted successfully", ⟨db.spendings, l₁ ++ l₂⟩) ∧
      (l₁ ++ l₂).countP (fun d => d.month == m)
        = db.income.countP (fun d => d.month == m) - 1 ∧
      1 ≤ (l₁ ++ l₂).countP (fun d => d.month == m)) := by
  have hex : ∃ d ∈ db.income, (fun d : IncomeDoc => d.month == m) d = true :=
    List.countP_pos_iff.mp (by omega)
  have hemp : ¬ u.isEmpty = true := by rw [hu]; exact Bool.false_ne_true
  refine ⟨List.take_of_length_le hcap, ?_, ?_⟩
  · obtain ⟨d0, hd0, hp0⟩ := hex
    cases hupd : updateFirst (fun d => d.month == m) u.applyTo db.income with
    | none => exact absurd ((updateFirst_eq_none_iff _ _ _).mp hupd d0 hd0) (by simp [hp0])
    | some pr =>
      obtain ⟨r, l⟩ := pr
      obtain ⟨l₁, x, l₂, hsplit, hpx, hl₁, rfl, rfl⟩ := updateFirst_eq_some _ _ hupd
      have hres : update_income db m u = (.ok (u.applyTo x),
          { db with income := l₁ ++ u.applyTo x :: l₂ }) := by
        rw [update_income, if_neg hemp, hupd]
      refine ⟨l₁, x, l₂, hsplit, by simpa using hpx,
        fun y hy => beq_eq_false_iff_ne.mp (hl₁ y hy), ?_, ?_, ?_⟩
      · rw [hres]
      · rw [hres]
      · rw [hres]
        have hmx : ((u.applyTo x).month == m) = (x.month == m) := by
          rw [IncomeUpdate.applyTo_month]
        simp only [hsplit, List.countP_append, List.countP_cons, hmx]
  · obtain ⟨d0, hd0, hp0⟩ := hex
    cases hdel : deleteFirst (fun d => d.month == m) db.income with
    | none => exact absurd ((deleteFirst_eq_none_iff _ _).mp hdel d0 hd0) (by simp [hp0])
    | some l =>
      obtain ⟨l₁, x, l₂, hsplit, hpx, hl₁, rfl⟩ := deleteFirst_eq_some _ hdel
      have hres : delete_income db m
          = (.ok "Income record deleted successfully",
             { db with income := l₁ ++ l₂ }) := by
        rw [delete_income, hdel]
      have hz1 : l₁.countP (fun d => d.month == m) = 0 :=
        List.countP_eq_zero.mpr fun y hy => by simp [hl₁ y hy]
      have hcnt : db.income.countP (fun d => d.month == m)
          = l₂.countP (fun d => d.month == m) + 1 := by
        rw [hsplit, List.countP_append, List.countP_cons, hz1, hpx]
        simp
      refine ⟨l₁, x, l₂, hsplit, by simpa using hpx,
        fun y hy => beq_eq_false_iff_ne.mp (hl₁ y hy), hres, ?_, ?_⟩
      · rw [List.countP_append, hz1, hcnt]
        omega
      · rw [List.countP_append, hz1]
        rw [hcnt] at hdup
        omega

/-- C10 (witness): on the store holding two bulk-created records for month
2025-01, list returns both, update touches exactly one and delete removes
exactly one. -/
theorem duplicate_months_behavior_witness :
    2 ≤ dbDup.income.countP (fun d => d.month == "2025-01") ∧
      (⟨some 9, none, none⟩ : IncomeUpdate).isEmpty = false ∧
      dbDup.income.length ≤ 1000 ∧
      (get_income dbDup = dbDup.income ∧
        (update_income dbDup "2025-01" ⟨some 9, none, none⟩).2.income.countP
            (fun d => d.month == "2025-01")
          = dbDup.income.countP (fun d => d.month == "2025-01") ∧
        (delete_income dbDup "2025-01").2.income.countP
            (fun d => d.month == "2025-01")
          = dbDup.income.countP (fun d => d.month == "2025-01") - 1) := by
  have h := duplicate_months_behavior dbDup "2025-01" ⟨some 9, none, none⟩
    (by decide) (by decide) (by decide)
  refine ⟨by decide, by decide, by decide, h.1, h.2.1.choose_spec.choose_spec.choose_spec.2.2.2.2.2, ?_⟩
  obtain ⟨l₁, d, l₂, hsplit, hm, hl₁, hdel, hcnt, hge⟩ := h.2.2
  rw [hdel]
  exact hcnt
